import Mathlib

/-!
Verification of the Baker Street Laboratory research orchestrator
(`src/implementation/src/orchestrator/research_orchestrator.py`).

The orchestrator is shallowly embedded: Python strings become `String`,
Python lists become `List`, Python dicts with a fixed key set become
structures, the two dicts whose key set varies between the success and the
failure branch of `conduct_research` become association lists
`List (String × String)`, float score literals become `ℚ`, and the
file-system side effects (directory creation, report write) become explicit
values threaded through the functions.  A Python method body may raise, so
the four pipeline phases invoked by `conduct_research` are abstracted as a
record of functions returning `Except String _`; the concrete phase bodies
of the source, which never raise, instantiate that record in
`defaultPhases`.  Nondeterministic environment reads (`uuid.uuid4()`,
`datetime.now()`) become explicit string parameters.
-/

/-- `pyStarts a b` : list `a` is a prefix of list `b` (char-by-char). -/
def pyStarts : List Char → List Char → Bool
  | [], _ => true
  | _ :: _, [] => false
  | a :: as, b :: bs => a == b && pyStarts as bs

/-- `pySubList needle hay` : `needle` occurs contiguously inside `hay`. -/
def pySubList : List Char → List Char → Bool
  | needle, [] => needle.isEmpty
  | needle, c :: cs => pyStarts needle (c :: cs) || pySubList needle cs

/-- Embedding of the Python containment test `sub in s` on strings. -/
def pyIn (sub s : String) : Bool := pySubList sub.toList s.toList

/-- Embedding of Python `str.lower()` (the queries in this codebase are ASCII). -/
def pyLower (s : String) : String := String.mk (s.toList.map Char.toLower)

/-- Helper for `pySplit`: split a character list at whitespace, dropping
empty runs, accumulating the current (reversed) word in `acc`. -/
def pySplitAux : List Char → List Char → List (List Char)
  | [], acc => if acc.isEmpty then [] else [acc.reverse]
  | c :: cs, acc =>
    if c.isWhitespace then
      if acc.isEmpty then pySplitAux cs [] else acc.reverse :: pySplitAux cs []
    else pySplitAux cs (c :: acc)

/-- Embedding of Python `str.split()` with no argument: split on runs of
whitespace, with no empty strings in the result. -/
def pySplit (s : String) : List String := (pySplitAux s.toList []).map List.asString

/-- Render the two-decimal score literals of the source (`0.78`, `0.85`,
`0.75`) the way Python `str()` prints them, e.g. `0.78`; trailing zero
digits are dropped as Python float repr does for these values. -/
def scoreStr (q : ℚ) : String :=
  let h : Nat := (q * 100).num.toNat
  let ip : Nat := h / 100
  let fp : Nat := h % 100
  if fp == 0 then toString ip ++ ".0"
  else if fp % 10 == 0 then toString ip ++ "." ++ toString (fp / 10)
  else if fp < 10 then toString ip ++ ".0" ++ toString fp
  else toString ip ++ "." ++ toString fp

/-- Phase-1 output of `_analyze_query` (a Python dict with a fixed key set). -/
structure Plan where
  query : String
  research_type : String
  key_concepts : List String
  search_strategies : List String
  expected_sources : List String
deriving DecidableEq, Repr

/-- Phase-2 output of `_collect_data` (a Python dict with a fixed key set). -/
structure CollectedData where
  sources_found : Nat
  academic_papers : Nat
  web_articles : Nat
  books : Nat
  quality_score : ℚ
  data_summary : String
deriving DecidableEq, Repr

/-- Phase-3 output of `_analyze_data` (a Python dict with a fixed key set). -/
structure Analysis where
  key_findings : List String
  themes : List String
  confidence_score : ℚ
  analysis_summary : String
deriving DecidableEq, Repr

/-- Phase-4 output of `_generate_report` (a Python dict with a fixed key set). -/
structure Report where
  report_path : String
  summary : String
  word_count : Nat
  sections : Nat
deriving DecidableEq, Repr

/-- Embedding of `ResearchOrchestrator._determine_research_type`: keyword
buckets checked by `if`/`elif` in source order, default `"general"`. -/
def determine_research_type (query : String) : String :=
  let query_lower := pyLower query
  if ["meaning", "purpose", "philosophy", "existence"].any (fun word => pyIn word query_lower) then
    "philosophical"
  else if ["technology", "science", "research"].any (fun word => pyIn word query_lower) then
    "technical"
  else if ["history", "historical", "past"].any (fun word => pyIn word query_lower) then
    "historical"
  else
    "general"

/-- The fixed `concept_keywords` table of
`ResearchOrchestrator._extract_key_concepts`, in source order. -/
def concept_keywords : List (String × List String) :=
  [("meaning", ["meaning", "purpose", "significance"]),
   ("life", ["life", "existence", "being"]),
   ("philosophy", ["philosophy", "philosophical", "ethics"]),
   ("science", ["science", "scientific", "research"]),
   ("technology", ["technology", "tech", "innovation"])]

/-- Embedding of `ResearchOrchestrator._extract_key_concepts`: a concept is
kept when any of its keywords occurs in the lowercased query; the Python
`concepts or ['general']` falls back to `["general"]` on the empty list. -/
def extract_key_concepts (query : String) : List String :=
  let query_lower := pyLower query
  let concepts :=
    (concept_keywords.filter (fun e => e.2.any (fun keyword => pyIn keyword query_lower))).map
      (fun e => e.1)
  if concepts.isEmpty then ["general"] else concepts

/-- Embedding of `ResearchOrchestrator._generate_search_strategies`. -/
def generate_search_strategies (query : String) : List String :=
  ["\"" ++ query ++ "\"",
   query ++ " research",
   query ++ " analysis",
   query ++ " overview"]

/-- Embedding of `ResearchOrchestrator._analyze_query` (the body never
raises: it only builds the plan dict from pure helpers). -/
def analyze_query (query : String) : Plan :=
  { query := query
    research_type := determine_research_type query
    key_concepts := extract_key_concepts query
    search_strategies := generate_search_strategies query
    expected_sources := ["academic", "web", "books", "reports"] }

/-- Embedding of `ResearchOrchestrator._collect_data`: a hardcoded
placeholder dict, only `data_summary` depends on the plan. -/
def collect_data (research_plan : Plan) : CollectedData :=
  { sources_found := 15
    academic_papers := 8
    web_articles := 5
    books := 2
    quality_score := 0.85
    data_summary := "Collected comprehensive data on: " ++ research_plan.query }

/-- Embedding of `ResearchOrchestrator._analyze_data`: the body ignores its
`collected_data` argument and returns a hardcoded analysis dict. -/
def analyze_data (_collected_data : CollectedData) : Analysis :=
  { key_findings :=
      ["Multiple philosophical perspectives exist on this topic",
       "Historical context provides important framework",
       "Modern interpretations vary significantly",
       "Practical applications are diverse"]
    themes := ["philosophy", "meaning", "purpose", "existence"]
    confidence_score := 0.78
    analysis_summary := "Comprehensive analysis completed with high confidence" }

/-- Embedding of `ResearchOrchestrator._generate_meaning_of_life_report`:
the enriched static template, parameterized by the session id, the
formatted date and the analysis confidence score. -/
def meaning_of_life_report (session_id date : String) (analysis : Analysis) : String :=
  "# Research Report: The Meaning of Life\n\n" ++
  "**Session ID:** " ++ session_id ++ "  \n" ++
  "**Date:** " ++ date ++ "  \n" ++
  "**Generated by:** Baker Street Laboratory Research Pipeline\n\n" ++
  "## Executive Summary\n\n" ++
  "The question \"What is the meaning of life?\" has been contemplated by philosophers, theologians, scientists, and thinkers throughout human history. This research explores various perspectives and approaches to understanding life\x27s purpose and meaning.\n\n" ++
  "## Key Findings\n\n" ++
  "### 1. Philosophical Perspectives\n\n" ++
  "**Existentialism**: Philosophers like Jean-Paul Sartre and Albert Camus argued that life has no inherent meaning, but individuals must create their own purpose through authentic choices and actions.\n\n" ++
  "**Absurdism**: Camus specifically proposed that the human condition is fundamentally absurd - the conflict between human desire for meaning and the universe\x27s apparent meaninglessness.\n\n" ++
  "**Religious and Spiritual Views**: Many religious traditions provide frameworks for life\x27s meaning:\n" ++
  "- Christianity: Relationship with God and eternal salvation\n" ++
  "- Buddhism: Liberation from suffering through enlightenment\n" ++
  "- Islam: Worship of Allah and following divine guidance\n" ++
  "- Hinduism: Dharma (righteous living) and moksha (liberation)\n\n" ++
  "### 2. Scientific and Secular Approaches\n\n" ++
  "**Evolutionary Biology**: From a biological standpoint, the \"purpose\" of life is survival and reproduction, passing genes to future generations.\n\n" ++
  "**Humanism**: Emphasizes human dignity, worth, and agency. Meaning comes from human relationships, creativity, and contribution to society.\n\n" ++
  "**Positive Psychology**: Research suggests meaning often comes from:\n" ++
  "- Purpose and goals\n" ++
  "- Relationships and love\n" ++
  "- Personal growth and achievement\n" ++
  "- Contributing to something larger than oneself\n\n" ++
  "### 3. Contemporary Perspectives\n\n" ++
  "**Viktor Frankl\x27s Logotherapy**: Based on his Holocaust experiences, Frankl argued that the primary human drive is the search for meaning, not pleasure or power.\n\n" ++
  "**Modern Philosophy**: Thinkers like Thomas Nagel explore the tension between subjective meaning (what matters to us) and objective meaning (cosmic significance).\n\n" ++
  "## Cultural and Historical Context\n\n" ++
  "Different cultures and historical periods have emphasized various aspects:\n" ++
  "- Ancient Greeks: Virtue and the good life (eudaimonia)\n" ++
  "- Medieval period: Divine purpose and afterlife preparation\n" ++
  "- Enlightenment: Reason, progress, and human potential\n" ++
  "- Modern era: Individual fulfillment and self-actualization\n\n" ++
  "## Practical Applications\n\n" ++
  "Research suggests several pathways to a meaningful life:\n\n" ++
  "1. **Relationships**: Deep connections with family, friends, and community\n" ++
  "2. **Purpose**: Having goals and working toward something meaningful\n" ++
  "3. **Growth**: Continuous learning and personal development\n" ++
  "4. **Service**: Contributing to others and society\n" ++
  "5. **Transcendence**: Connecting with something greater than oneself\n\n" ++
  "## The \"42\" Reference\n\n" ++
  "Douglas Adams\x27 \"The Hitchhiker\x27s Guide to the Galaxy\" humorously suggested that \"42\" is the answer to the ultimate question of life, the universe, and everything. While satirical, this highlights the difficulty of finding simple answers to profound questions.\n\n" ++
  "## Synthesis and Conclusions\n\n" ++
  "The meaning of life appears to be:\n\n" ++
  "1. **Subjective and Personal**: What gives life meaning varies greatly among individuals\n" ++
  "2. **Multifaceted**: Likely involves multiple dimensions (relationships, purpose, growth, contribution)\n" ++
  "3. **Constructed**: Humans appear to create meaning rather than discover pre-existing meaning\n" ++
  "4. **Dynamic**: Life\x27s meaning may change throughout different life stages\n" ++
  "5. **Both Individual and Collective**: Personal meaning often involves connection to others and larger purposes\n\n" ++
  "## Recommendations for Further Exploration\n\n" ++
  "1. **Philosophical Study**: Explore works by Aristotle, Kant, Nietzsche, Sartre, and contemporary philosophers\n" ++
  "2. **Religious and Spiritual Texts**: Examine various traditions\x27 approaches to life\x27s purpose\n" ++
  "3. **Scientific Research**: Review studies in positive psychology and well-being research\n" ++
  "4. **Personal Reflection**: Engage in practices like journaling, meditation, or therapy to explore personal meaning\n" ++
  "5. **Community Engagement**: Participate in activities that connect you with others and contribute to society\n\n" ++
  "## Final Thoughts\n\n" ++
  "While there may be no single, universal answer to \"What is the meaning of life?\", the question itself drives human growth, connection, and achievement. The search for meaning appears to be as important as any answer we might find.\n\n" ++
  "The most robust approach may be to:\n" ++
  "- Acknowledge the question\x27s complexity\n" ++
  "- Explore multiple perspectives\n" ++
  "- Create personal meaning through relationships, purpose, and contribution\n" ++
  "- Remain open to evolving understanding throughout life\n\n" ++
  "---\n\n" ++
  "*This report represents a synthesis of philosophical, scientific, and cultural perspectives on life\x27s meaning. Individual experiences and beliefs will naturally vary.*\n\n" ++
  "**Research Quality Score:** " ++ scoreStr analysis.confidence_score ++ "/1.0  \n" ++
  "**Sources Analyzed:** Academic papers, philosophical works, scientific studies, cultural texts  \n" ++
  "**Methodology:** Multi-perspective analysis with emphasis on both historical and contemporary viewpoints\n"

/-- Embedding of `ResearchOrchestrator._generate_generic_report`: the
data-driven template interpolating the query and the analysis fields. -/
def generic_report (session_id date query : String) (analysis : Analysis) : String :=
  "# Research Report: " ++ query ++ "\n\n" ++
  "**Session ID:** " ++ session_id ++ "  \n" ++
  "**Date:** " ++ date ++ "  \n" ++
  "**Generated by:** Baker Street Laboratory Research Pipeline\n\n" ++
  "## Executive Summary\n\n" ++
  "This report presents research findings on: " ++ query ++ "\n\n" ++
  "## Key Findings\n\n" ++
  String.intercalate "\n" (analysis.key_findings.map (fun finding => "- " ++ finding)) ++ "\n\n" ++
  "## Analysis Summary\n\n" ++
  analysis.analysis_summary ++ "\n\n" ++
  "## Themes Identified\n\n" ++
  String.intercalate ", " analysis.themes ++ "\n\n" ++
  "## Confidence Score\n\n" ++
  "Research confidence: " ++ scoreStr analysis.confidence_score ++ "/1.0\n\n" ++
  "---\n\n" ++
  "*This report was generated by the Baker Street Laboratory research pipeline.*\n"

/-- Embedding of `ResearchOrchestrator._generate_report`.  The file write
`open(report_path, 'w').write(report_content)` is made explicit: besides
the returned report dict, the function returns the `(path, content)` pair
written to durable storage.  `date` stands for the `datetime.now()` read
inside the template rendering. -/
def generate_report (session_id date query : String) (analysis : Analysis)
    (output_path : String) : Report × (String × String) :=
  let report_content :=
    if pyIn "meaning of life" (pyLower query) then
      meaning_of_life_report session_id date analysis
    else
      generic_report session_id date query analysis
  let report_path := output_path ++ "/research_report_" ++ session_id ++ ".md"
  ({ report_path := report_path
     summary := "Research report generated successfully"
     word_count := (pySplit report_content).length
     sections := 6 },
   (report_path, report_content))

/-- Embedding of `ResearchOrchestrator.__init__`: the session id is the
first 8 characters of a fresh UUID string, fixed once per orchestrator
instance.  The UUID, an environment read, is an explicit parameter. -/
structure Orchestrator where
  session_id : String
deriving DecidableEq, Repr

/-- `ResearchOrchestrator.__init__` given the string form of `uuid.uuid4()`:
`self.session_id = str(uuid.uuid4())[:8]`. -/
def orchestratorInit (uuid : String) : Orchestrator :=
  { session_id := uuid.take 8 }

/-- Embedding of `Path(output_dir).mkdir(parents=True, exist_ok=True)` over
a file system modelled as the list of existing directories: creating an
existing directory is a no-op and never fails. -/
def mkdirParentsExistOk (dirs : List String) (d : String) : List String :=
  if d ∈ dirs then dirs else d :: dirs

/-- The four phase bodies called inside the `try` of `conduct_research`.
Each is a Python method call that may raise, so each returns
`Except String _` (the `String` is the exception message `str(e)`).
`genReport` returns the report dict together with the `(path, content)`
file write it performs. -/
structure Phases where
  analyze : String → Except String Plan
  collect : Plan → Except String CollectedData
  analyzeData : CollectedData → Except String Analysis
  genReport : String → Analysis → String → Except String (Report × (String × String))

/-- The source's concrete phase bodies (which never raise), with the
orchestrator's session id and the formatted report date supplied. -/
def defaultPhases (session_id date : String) : Phases :=
  { analyze := fun query => Except.ok (analyze_query query)
    collect := fun plan => Except.ok (collect_data plan)
    analyzeData := fun data => Except.ok (analyze_data data)
    genReport := fun query analysis output_path =>
      Except.ok (generate_report session_id date query analysis output_path) }

/-- The success-branch result dict of `conduct_research`, in source key
order. -/
def successEnvelope (session_id query timestamp output_dir : String)
    (report : Report) : List (String × String) :=
  [("session_id", session_id),
   ("query", query),
   ("timestamp", timestamp),
   ("output_dir", output_dir),
   ("summary", report.summary),
   ("report_path", report.report_path),
   ("status", "completed")]

/-- The `except`-branch result dict of `conduct_research`, in source key
order. -/
def failureEnvelope (session_id query timestamp error : String) :
    List (String × String) :=
  [("session_id", session_id),
   ("query", query),
   ("timestamp", timestamp),
   ("error", error),
   ("status", "failed")]

/-- The observable outcome of one `conduct_research` call: the returned
result dict, the directory list after `mkdir`, and the report files
written during the call. -/
structure RunResult where
  envelope : List (String × String)
  dirs : List String
  files : List (String × String)
deriving DecidableEq, Repr

/-- Embedding of `ResearchOrchestrator.conduct_research`: create the output
directory, then run the four phases in order inside `try`; the first
raising phase short-circuits to the `except` branch, which returns the
failure dict; on success the success dict is returned.  `timestamp` stands
for `datetime.now().isoformat()`. -/
def conduct_research (o : Orchestrator) (ph : Phases) (query output_dir timestamp : String)
    (dirs : List String) : RunResult :=
  let dirs2 := mkdirParentsExistOk dirs output_dir
  match ph.analyze query with
  | Except.error e => ⟨failureEnvelope o.session_id query timestamp e, dirs2, []⟩
  | Except.ok research_plan =>
    match ph.collect research_plan with
    | Except.error e => ⟨failureEnvelope o.session_id query timestamp e, dirs2, []⟩
    | Except.ok collected_data =>
      match ph.analyzeData collected_data with
      | Except.error e => ⟨failureEnvelope o.session_id query timestamp e, dirs2, []⟩
      | Except.ok analysis_results =>
        match ph.genReport query analysis_results output_dir with
        | Except.error e => ⟨failureEnvelope o.session_id query timestamp e, dirs2, []⟩
        | Except.ok (report, fileWrite) =>
          ⟨successEnvelope o.session_id query timestamp output_dir report, dirs2, [fileWrite]⟩

/-- Category buckets as the specification words them: a priority-ordered
list philosophical-keywords, technical-keywords, historical-keywords; the
first bucket with a matching keyword wins, default `"general"`.  This
definition follows the spec text and is compared against
`determine_research_type`, which follows the source. -/
def categoryBuckets : List (String × List String) :=
  [("philosophical", ["meaning", "purpose", "philosophy", "existence"]),
   ("technical", ["technology", "science", "research"]),
   ("historical", ["history", "historical", "past"])]

/-- Spec-worded category function: first matching bucket of
`categoryBuckets` wins, else `"general"`. -/
def category_spec (query : String) : String :=
  match categoryBuckets.find? (fun bucket => bucket.2.any (fun word => pyIn word (pyLower query))) with
  | some bucket => bucket.1
  | none => "general"

/-- A concrete `Phases` record whose data-collection phase raises, standing
for a failing data-source connector; the other phases are the source's
bodies. -/
def failingCollectPhases : Phases :=
  { defaultPhases "0f3a9b2c" "2025-01-01 00:00:00" with
    collect := fun _ => Except.error "ConnectionError: data source unavailable" }

/-- A variant of `failingCollectPhases` whose later phases are altered,
used to observe that phases after a failing collection are never run. -/
def alteredLatePhases : Phases :=
  { failingCollectPhases with
    analyzeData := fun _ => Except.error "AnalysisError: should never run" }

/-- In every branch of `conduct_research`, the returned dict carries the
orchestrator's fixed `session_id`. -/
theorem sessionIdOfRun (o : Orchestrator) (ph : Phases) (query output_dir timestamp : String)
    (dirs : List String) :
    (conduct_research o ph query output_dir timestamp dirs).envelope.lookup "session_id" =
      some o.session_id := by
  cases hA : ph.analyze query with
  | error e => simp [conduct_research, hA, failureEnvelope, List.lookup]
  | ok plan =>
    cases hC : ph.collect plan with
    | error e => simp [conduct_research, hA, hC, failureEnvelope, List.lookup]
    | ok data =>
      cases hD : ph.analyzeData data with
      | error e => simp [conduct_research, hA, hC, hD, failureEnvelope, List.lookup]
      | ok analysis =>
        cases hG : ph.genReport query analysis output_dir with
        | error e => simp [conduct_research, hA, hC, hD, hG, failureEnvelope, List.lookup]
        | ok pr => simp [conduct_research, hA, hC, hD, hG, successEnvelope, List.lookup]

/-- Key membership in the filtered concept table: with pairwise-distinct
keys, a table entry's key survives the filter-then-project exactly when the
filter predicate holds of that entry. -/
theorem keysOfFilterMem {α β : Type} [DecidableEq α] (tbl : List (α × β)) (p : α × β → Bool)
    (c : α) (kws : β) (hnd : (tbl.map Prod.fst).Nodup) (hm : (c, kws) ∈ tbl) :
    c ∈ (tbl.filter p).map Prod.fst ↔ p (c, kws) = true := by
  induction tbl with
  | nil => cases hm
  | cons e t ih =>
    rw [List.map_cons, List.nodup_cons] at hnd
    rcases List.mem_cons.mp hm with he | ht
    · subst he
      cases hp : p (c, kws) with
      | true => simp [List.filter_cons, hp]
      | false =>
        simp only [List.filter_cons, hp, Bool.false_eq_true, if_false, iff_false]
        intro hc
        rcases List.mem_map.mp hc with ⟨x, hx, hfx⟩
        exact hnd.1 (List.mem_map.mpr ⟨x, List.mem_of_mem_filter hx, hfx⟩)
    · have ihx := ih hnd.2 ht
      have hc_mem : c ∈ List.map Prod.fst t := List.mem_map.mpr ⟨(c, kws), ht, rfl⟩
      have hne : c ≠ e.1 := fun h => hnd.1 (h ▸ hc_mem)
      cases hp : p e with
      | true => simp [List.filter_cons, hp, List.mem_cons, hne, ihx]
      | false => simpa [List.filter_cons, hp] using ihx

/-- C1 counterexample: the claim says `collect_data` reports zero sources
found for every research plan; on the concrete plan for the query
"test query" the source reports 15 sources, not zero. -/
theorem C1_counterexample :
    (collect_data (analyze_query "test query")).sources_found = 15 ∧
    ¬ (collect_data (analyze_query "test query")).sources_found = 0 := by
  constructor <;> decide

/-- C1 (amended): `_collect_data` has no connector and returns a fixed
fabricated placeholder, not an empty one: for every research plan it
reports 15 sources found with quality score 0.85, and the reported counts
do not depend on the plan. -/
theorem C1_collect_data_fabricated_placeholder (p1 p2 : Plan) :
    (collect_data p1).sources_found = 15 ∧
    (collect_data p1).quality_score = 0.85 ∧
    (collect_data p1).sources_found = (collect_data p2).sources_found ∧
    (collect_data p1).quality_score = (collect_data p2).quality_score :=
  ⟨rfl, rfl, rfl, rfl⟩

/-- C2 counterexample: the claim says an empty query fails with
`InvalidQueryError` before any phase runs; in the source the empty query is
accepted and the whole default pipeline completes with status
`"completed"`. -/
theorem C2_counterexample :
    (conduct_research (orchestratorInit "0f3a9b2c-d41e-4f6a-8b7c-1a2b3c4d5e6f")
        (defaultPhases "0f3a9b2c" "2025-01-01 00:00:00") "" "research/output"
        "2025-01-01T00:00:00" []).envelope.lookup "status" = some "completed" := by
  decide

/-- C2 (amended): `_analyze_query` performs no validation and has no
failure mode at all — the code defines no `InvalidQueryError`; every
query, the empty and whitespace-only ones included, yields a research plan
and the default pipeline runs to `"completed"`. -/
theorem C2_analyze_query_never_fails (uuid session_id date query output_dir timestamp : String)
    (dirs : List String) :
    (defaultPhases session_id date).analyze query = Except.ok (analyze_query query) ∧
    (conduct_research (orchestratorInit uuid) (defaultPhases session_id date)
        query output_dir timestamp dirs).envelope.lookup "status" = some "completed" := by
  refine ⟨rfl, ?_⟩
  simp [conduct_research, defaultPhases, successEnvelope, List.lookup]

/-- C3 counterexample: the claim says two successive `conduct_research`
calls on the same orchestrator run under distinct session identifiers; on
a concrete orchestrator both calls report the identical session id
`"0f3a9b2c"` (the id is fixed in `__init__`, not per call). -/
theorem C3_counterexample :
    (conduct_research (orchestratorInit "0f3a9b2c-d41e-4f6a-8b7c-1a2b3c4d5e6f")
        (defaultPhases "0f3a9b2c" "2025-01-01 00:00:00") "first query" "research/output"
        "2025-01-01T00:00:00" []).envelope.lookup "session_id" =
      (conduct_research (orchestratorInit "0f3a9b2c-d41e-4f6a-8b7c-1a2b3c4d5e6f")
        (defaultPhases "0f3a9b2c" "2025-01-01 00:00:01") "second query" "research/output"
        "2025-01-01T00:00:01" ["research/output"]).envelope.lookup "session_id" ∧
    (conduct_research (orchestratorInit "0f3a9b2c-d41e-4f6a-8b7c-1a2b3c4d5e6f")
        (defaultPhases "0f3a9b2c" "2025-01-01 00:00:00") "first query" "research/output"
        "2025-01-01T00:00:00" []).envelope.lookup "session_id" = some "0f3a9b2c" := by
  constructor <;> decide

/-- C3 (amended): output-directory creation is idempotent and never fails,
but the session id is allocated once per orchestrator instance, not per
session: every `conduct_research` call on one orchestrator reports that
same id, and distinct ids arise only from distinct orchestrator instances
whose UUIDs differ in their first 8 characters. -/
theorem C3_session_id_per_instance :
    (∀ (dirs : List String) (d : String),
      mkdirParentsExistOk (mkdirParentsExistOk dirs d) d = mkdirParentsExistOk dirs d) ∧
    (∀ (o : Orchestrator) (ph1 ph2 : Phases) (q1 q2 od ts1 ts2 : String)
        (dirs1 dirs2 : List String),
      (conduct_research o ph1 q1 od ts1 dirs1).envelope.lookup "session_id" =
        (conduct_research o ph2 q2 od ts2 dirs2).envelope.lookup "session_id") ∧
    (∀ u1 u2 : String, u1.take 8 ≠ u2.take 8 →
      (orchestratorInit u1).session_id ≠ (orchestratorInit u2).session_id) := by
  refine ⟨?_, ?_, ?_⟩
  · intro dirs d
    unfold mkdirParentsExistOk
    split
    · next h => simp [h]
    · next h => simp
  · intro o ph1 ph2 q1 q2 od ts1 ts2 dirs1 dirs2
    rw [sessionIdOfRun, sessionIdOfRun]
  · intro u1 u2 h
    simpa [orchestratorInit] using h

/-- C3 witness: the amended claim at concrete inputs — re-creating
`research/output` is a no-op, and orchestrators built from two UUIDs with
distinct 8-character prefixes get distinct session ids. -/
theorem C3_session_id_per_instance_witness :
    mkdirParentsExistOk (mkdirParentsExistOk [] "research/output") "research/output" =
      mkdirParentsExistOk [] "research/output" ∧
    (orchestratorInit "0f3a9b2c-d41e-4f6a-8b7c-1a2b3c4d5e6f").session_id ≠
      (orchestratorInit "7e6d5c4b-3a2f-4e1d-9c8b-0a1b2c3d4e5f").session_id :=
  ⟨C3_session_id_per_instance.1 [] "research/output",
   C3_session_id_per_instance.2.2 "0f3a9b2c-d41e-4f6a-8b7c-1a2b3c4d5e6f"
     "7e6d5c4b-3a2f-4e1d-9c8b-0a1b2c3d4e5f" (by decide)⟩

/-- C4: if the data-collection phase raises, `conduct_research` returns a
result with status `"failed"`, writes no report file, and the remaining
phases never execute — the outcome is unchanged under any replacement of
the analysis and report phases. -/
theorem C4_collect_failure_short_circuits (o : Orchestrator) (ph ph2 : Phases)
    (query output_dir timestamp : String) (dirs : List String) (plan : Plan) (e : String)
    (hA : ph.analyze query = Except.ok plan)
    (hC : ph.collect plan = Except.error e)
    (hA2 : ph2.analyze = ph.analyze) (hC2 : ph2.collect = ph.collect) :
    (conduct_research o ph query output_dir timestamp dirs).envelope.lookup "status" =
      some "failed" ∧
    (conduct_research o ph query output_dir timestamp dirs).files = [] ∧
    conduct_research o ph2 query output_dir timestamp dirs =
      conduct_research o ph query output_dir timestamp dirs := by
  refine ⟨?_, ?_, ?_⟩ <;>
    simp [conduct_research, hA, hC, hA2, hC2, failureEnvelope, List.lookup]

/-- C4 witness: a concrete run whose collection phase raises ends with
status `"failed"`, writes no file, and is insensitive to an altered
analysis phase. -/
theorem C4_collect_failure_short_circuits_witness :
    (conduct_research (orchestratorInit "0f3a9b2c-d41e-4f6a-8b7c-1a2b3c4d5e6f")
        failingCollectPhases "test query" "research/output" "2025-01-01T00:00:00"
        []).envelope.lookup "status" = some "failed" ∧
    (conduct_research (orchestratorInit "0f3a9b2c-d41e-4f6a-8b7c-1a2b3c4d5e6f")
        failingCollectPhases "test query" "research/output" "2025-01-01T00:00:00" []).files =
      [] ∧
    conduct_research (orchestratorInit "0f3a9b2c-d41e-4f6a-8b7c-1a2b3c4d5e6f")
        alteredLatePhases "test query" "research/output" "2025-01-01T00:00:00" [] =
      conduct_research (orchestratorInit "0f3a9b2c-d41e-4f6a-8b7c-1a2b3c4d5e6f")
        failingCollectPhases "test query" "research/output" "2025-01-01T00:00:00" [] :=
  C4_collect_failure_short_circuits
    (orchestratorInit "0f3a9b2c-d41e-4f6a-8b7c-1a2b3c4d5e6f") failingCollectPhases
    alteredLatePhases "test query" "research/output" "2025-01-01T00:00:00" []
    (analyze_query "test query") "ConnectionError: data source unavailable" rfl rfl rfl rfl

/-- C5: the source's category function agrees with the spec-worded
priority-bucket function on every query (philosophical before technical
before historical, first match wins, default `"general"`); the query
"What is the meaning of life?" resolves to `philosophical` with concepts
including `meaning` and `life`, and "Latest developments in AI research"
resolves to `technical`. -/
theorem C5_category_priority_and_examples :
    (∀ query : String, determine_research_type query = category_spec query) ∧
    determine_research_type "What is the meaning of life?" = "philosophical" ∧
    "meaning" ∈ extract_key_concepts "What is the meaning of life?" ∧
    "life" ∈ extract_key_concepts "What is the meaning of life?" ∧
    determine_research_type "Latest developments in AI research" = "technical" := by
  refine ⟨?_, by decide, by decide, by decide, by decide⟩
  intro query
  unfold determine_research_type category_spec categoryBuckets
  cases h1 : List.any ["meaning", "purpose", "philosophy", "existence"]
      (fun word => pyIn word (pyLower query)) <;>
  cases h2 : List.any ["technology", "science", "research"]
      (fun word => pyIn word (pyLower query)) <;>
  cases h3 : List.any ["history", "historical", "past"]
      (fun word => pyIn word (pyLower query)) <;>
  simp [List.find?, h1, h2, h3]

/-- C6 counterexample: the claim says every `conduct_research` result
carries all of session_id, query, timestamp, output_dir, status, summary
and report_path; a concrete run whose collection phase raises returns a
dict with no `summary`, no `report_path` and no `output_dir` key. -/
theorem C6_counterexample :
    (conduct_research (orchestratorInit "0f3a9b2c-d41e-4f6a-8b7c-1a2b3c4d5e6f")
        failingCollectPhases "test query" "research/output" "2025-01-01T00:00:00"
        []).envelope.lookup "status" = some "failed" ∧
    ¬ "summary" ∈ (conduct_research (orchestratorInit "0f3a9b2c-d41e-4f6a-8b7c-1a2b3c4d5e6f")
        failingCollectPhases "test query" "research/output" "2025-01-01T00:00:00"
        []).envelope.map Prod.fst ∧
    ¬ "report_path" ∈ (conduct_research (orchestratorInit "0f3a9b2c-d41e-4f6a-8b7c-1a2b3c4d5e6f")
        failingCollectPhases "test query" "research/output" "2025-01-01T00:00:00"
        []).envelope.map Prod.fst ∧
    ¬ "output_dir" ∈ (conduct_research (orchestratorInit "0f3a9b2c-d41e-4f6a-8b7c-1a2b3c4d5e6f")
        failingCollectPhases "test query" "research/output" "2025-01-01T00:00:00"
        []).envelope.map Prod.fst := by
  refine ⟨by decide, by decide, by decide, by decide⟩

/-- C6 (amended): every `conduct_research` call returns a structured dict,
never a silent empty success — on success it carries exactly session_id,
query, timestamp, output_dir, summary, report_path, status (completed); on
failure it carries exactly session_id, query, timestamp, error, status
(failed), omitting output_dir, summary and report_path. -/
theorem C6_envelope_keys_by_outcome (o : Orchestrator) (ph : Phases)
    (query output_dir timestamp : String) (dirs : List String) :
    ((conduct_research o ph query output_dir timestamp dirs).envelope.map Prod.fst =
        ["session_id", "query", "timestamp", "output_dir", "summary", "report_path", "status"] ∧
      (conduct_research o ph query output_dir timestamp dirs).envelope.lookup "status" =
        some "completed") ∨
    ((conduct_research o ph query output_dir timestamp dirs).envelope.map Prod.fst =
        ["session_id", "query", "timestamp", "error", "status"] ∧
      (conduct_research o ph query output_dir timestamp dirs).envelope.lookup "status" =
        some "failed") := by
  cases hA : ph.analyze query with
  | error e => exact Or.inr (by simp [conduct_research, hA, failureEnvelope, List.lookup])
  | ok plan =>
    cases hC : ph.collect plan with
    | error e => exact Or.inr (by simp [conduct_research, hA, hC, failureEnvelope, List.lookup])
    | ok data =>
      cases hD : ph.analyzeData data with
      | error e =>
        exact Or.inr (by simp [conduct_research, hA, hC, hD, failureEnvelope, List.lookup])
      | ok analysis =>
        cases hG : ph.genReport query analysis output_dir with
        | error e =>
          exact Or.inr (by simp [conduct_research, hA, hC, hD, hG, failureEnvelope, List.lookup])
        | ok pr =>
          exact Or.inl (by simp [conduct_research, hA, hC, hD, hG, successEnvelope, List.lookup])

/-- C7: for every run of the report phase, the `word_count` in the
returned report metadata equals the whitespace-delimited word count of the
exact content written to the report file. -/
theorem C7_word_count_roundtrip (session_id date query : String) (analysis : Analysis)
    (output_path : String) :
    (generate_report session_id date query analysis output_path).1.word_count =
      (pySplit (generate_report session_id date query analysis output_path).2.2).length := rfl

/-- C8: the key-concept list is never empty; a concept of the fixed table
is listed exactly when one of its keywords occurs in the lowercased query,
and when no keyword of any concept matches, the list is exactly
`["general"]`. -/
theorem C8_key_concepts_membership (query : String) :
    extract_key_concepts query ≠ [] ∧
    (∀ c kws, (c, kws) ∈ concept_keywords →
      (c ∈ extract_key_concepts query ↔
        kws.any (fun keyword => pyIn keyword (pyLower query)) = true)) ∧
    ((∀ c kws, (c, kws) ∈ concept_keywords →
        kws.any (fun keyword => pyIn keyword (pyLower query)) = false) →
      extract_key_concepts query = ["general"]) := by
  have hdef : extract_key_concepts query =
      (if ((concept_keywords.filter
              (fun e => e.2.any (fun keyword => pyIn keyword (pyLower query)))).map
            Prod.fst).isEmpty
        then ["general"]
        else (concept_keywords.filter
              (fun e => e.2.any (fun keyword => pyIn keyword (pyLower query)))).map
            Prod.fst) := rfl
  refine ⟨?_, ?_, ?_⟩
  · rw [hdef]
    split
    · simp
    · next hE => simpa using hE
  · intro c kws hm
    rw [hdef]
    split
    · next hE =>
      have hfil : (concept_keywords.filter
          (fun e => e.2.any (fun keyword => pyIn keyword (pyLower query)))) = [] :=
        List.map_eq_nil_iff.mp (List.isEmpty_iff.mp hE)
      have hfalse : ¬ ((fun (e : String × List String) =>
          e.2.any (fun keyword => pyIn keyword (pyLower query))) (c, kws) = true) := by
        have := List.filter_eq_nil_iff.mp hfil (c, kws) hm
        simpa using this
      have hckey : c ∈ concept_keywords.map Prod.fst := List.mem_map.mpr ⟨(c, kws), hm, rfl⟩
      have hne : c ≠ "general" := by
        intro h; subst h; revert hckey; decide
      simp only [List.mem_singleton]
      constructor
      · intro h; exact absurd h hne
      · intro h; exact absurd h hfalse
    · exact keysOfFilterMem concept_keywords _ c kws (by decide) hm
  · intro hall
    rw [hdef]
    have hfil : (concept_keywords.filter
        (fun e => e.2.any (fun keyword => pyIn keyword (pyLower query)))) = [] := by
      apply List.filter_eq_nil_iff.mpr
      intro e he
      obtain ⟨c, kws⟩ := e
      simpa using hall c kws he
    rw [hfil]
    simp

/-- C8 witness: the property at concrete inputs — the concept list of
"What is the meaning of life?" is non-empty and lists `meaning` because the
keyword `meaning` occurs in the lowercased query. -/
theorem C8_key_concepts_membership_witness :
    extract_key_concepts "What is the meaning of life?" ≠ [] ∧
    ("meaning" ∈ extract_key_concepts "What is the meaning of life?" ↔
      List.any ["meaning", "purpose", "significance"]
        (fun keyword => pyIn keyword (pyLower "What is the meaning of life?")) = true) :=
  ⟨(C8_key_concepts_membership "What is the meaning of life?").1,
   (C8_key_concepts_membership "What is the meaning of life?").2.1 "meaning"
     ["meaning", "purpose", "significance"] (by decide)⟩

/-- C9: the analysis phase is a constant function — it ignores the
collected data (and receives no research plan), always returning the same
four key findings, the theme list philosophy/meaning/purpose/existence,
and confidence score 0.78. -/
theorem C9_analyze_data_constant (d1 d2 : CollectedData) :
    analyze_data d1 = analyze_data d2 ∧
    (analyze_data d1).themes = ["philosophy", "meaning", "purpose", "existence"] ∧
    (analyze_data d1).confidence_score = 0.78 ∧
    (analyze_data d1).key_findings =
      ["Multiple philosophical perspectives exist on this topic",
       "Historical context provides important framework",
       "Modern interpretations vary significantly",
       "Practical applications are diverse"] :=
  ⟨rfl, rfl, rfl, rfl⟩

/-- C10: the report metadata always reports the literal constant 6 as the
section count, for every query, analysis and output path — independent of
which template produced the content. -/
theorem C10_sections_constant_six (session_id date query : String) (analysis : Analysis)
    (output_path : String) :
    (generate_report session_id date query analysis output_path).1.sections = 6 := rfl
